import Mathlib

/-!
Verification of the amana-chat repository against its specification.

The repository has two components:

* `src/app/api/ably-token/route.ts` — the TokenIssuer: a `GET` handler that
  reads the `ABLY_API_KEY` environment variable, generates an anonymous
  client identity `"amana-chat-user-" + Math.floor(Math.random() * 10000)`,
  asks the upstream broker library (`Ably.Rest(...).auth.createTokenRequest`)
  for a signed token request, and serializes the result; missing key or an
  upstream exception are mapped to an HTTP 500 JSON error body.

* `src/unnamed/part_000` — the client React component (ChannelSession +
  MessageLog): React state `ably`, `channel`, `messages`, `messageText`,
  `username`, `ablyScriptLoaded`; a subscribe handler that appends each
  inbound message to `messages`; a `handleSendMessage` form handler; an
  input `onChange`; an effect that (once the CDN script is loaded) creates
  the client, gets the channel, subscribes and stores both handles; and an
  effect cleanup that calls `ablyClient.close()`.

The embedding below is a direct translation.  Collaborator calls (the
transport's publish/close primitives, the upstream signing API) are
recorded as explicit effect values so that claims about "no transport
call" are statements about the emitted effect list.
-/

namespace AmanaChat

/-! ### Server side: the TokenIssuer (`route.ts`) -/

/-- An HTTP response as produced by the route handler: a status code and a
serialized body string. -/
structure Response where
  status : Nat
  body : String
  deriving DecidableEq, Repr

/-- A record of one call to the upstream signing API
(`client.auth.createTokenRequest`), carrying the secret the `Ably.Rest`
client was constructed with and the `clientId` passed in the request. -/
structure UpstreamCall where
  apiKey : String
  clientId : String
  deriving DecidableEq, Repr

/-- Body of the 500 response when `ABLY_API_KEY` is not set:
`JSON.stringify(\x7b error: "ABLY_API_KEY not set" \x7d)`. -/
def keyUnsetBody : String := "\x7b\"error\":\"ABLY_API_KEY not set\"\x7d"

/-- Body of the 500 response emitted by the `catch` branch:
`JSON.stringify(\x7b error: "Failed to create token" \x7d)`.  A fixed
string, independent of the caught exception. -/
def tokenFailBody : String := "\x7b\"error\":\"Failed to create token\"\x7d"

/-- The anonymous identity generated by the handler:
`"amana-chat-user-" + Math.floor(Math.random() * 10000)`.  `rand` stands
for the value of `Math.floor(Math.random() * 10000)`; JavaScript string
concatenation of an integer uses its decimal representation, i.e.
`Nat.repr`. -/
def clientIdFor (rand : Nat) : String := "amana-chat-user-" ++ Nat.repr rand

/-- The `GET` handler of `route.ts`.

* `apiKey` is `process.env.ABLY_API_KEY` (`none` when unset; JavaScript
  treats the empty string as falsy too, hence the `key = ""` branch).
* `sign` models the upstream broker library: constructing `Ably.Rest key`
  and awaiting `createTokenRequest` with the given `clientId`.  Its result
  type `α` is opaque to the handler; `Except.error` covers a throw or a
  rejected promise (caught by the `catch` branch).
* `serialize` is `JSON.stringify` on the opaque token-request value.
* The second component lists the upstream signing calls performed. -/
def GET {α : Type} (serialize : α → String) (sign : String → String → Except String α)
    (apiKey : Option String) (rand : Nat) : Response × List UpstreamCall :=
  match apiKey with
  | none => (⟨500, keyUnsetBody⟩, [])
  | some key =>
    if key = "" then (⟨500, keyUnsetBody⟩, [])
    else
      match sign key (clientIdFor rand) with
      | Except.ok tok => (⟨200, serialize tok⟩, [⟨key, clientIdFor rand⟩])
      | Except.error _ => (⟨500, tokenFailBody⟩, [⟨key, clientIdFor rand⟩])

/-! ### Client side: the ChannelSession component (`part_000`) -/

/-- The `AblyMessage` interface of the component: `id`, `name` (sender
handle), `data` (body) and `timestamp`. -/
structure AblyMessage where
  id : String
  name : String
  data : String
  timestamp : Nat
  deriving DecidableEq, Repr

/-- The payload given to `channel.publish(\x7b name: username, data:
messageText \x7d)`. -/
structure Payload where
  name : String
  data : String
  deriving DecidableEq, Repr

/-- Observable collaborator calls made by the component: the transport's
publish primitive and the transport's `close()` primitive. -/
inductive Effect where
  | publish (p : Payload)
  | closeTransport
  deriving DecidableEq, Repr

/-- Error taxonomy of the specification for the publish path.  The source
`handleSendMessage` returns `undefined` and never constructs any error
value, so the embedding's error component is always `none`; the type
exists so that the claim "publish returns `NotConnectedError`" can be
stated against the code. -/
inductive PublishError where
  | notConnectedError
  deriving DecidableEq, Repr

/-- The React state of the component.  `ablySet`/`channelSet` record
whether the `ably`/`channel` state variables hold a non-null handle (their
identity is irrelevant to control flow; only nullness is tested). -/
structure ClientState where
  ablySet : Bool
  channelSet : Bool
  ablyScriptLoaded : Bool
  messages : List AblyMessage
  messageText : String
  username : String
  deriving DecidableEq, Repr

/-- JavaScript `String.prototype.trim()`: removes leading and trailing
whitespace.  Implemented over the character list so that concrete
evaluation can unfold it (the library's `String.trim` is defined by
well-founded recursion on byte positions, which the kernel cannot
reduce). -/
def jsTrim (s : String) : String :=
  ⟨((s.data.dropWhile Char.isWhitespace).reverse.dropWhile Char.isWhitespace).reverse⟩

/-- The single inbound-message handler registered by
`chatChannel.subscribe`: `setMessages(prev => [...prev, msg])`. -/
def subscribeHandler (s : ClientState) (msg : AblyMessage) : ClientState :=
  { s with messages := s.messages ++ [msg] }

/-- `handleSendMessage`: return early when `messageText.trim() === ''`;
otherwise, if the `channel` handle is non-null, call `channel.publish`
with `\x7b name: username, data: messageText \x7d` and clear the input via
`setMessageText('')`.  The function returns no value and throws nothing,
so the error component is constantly `none`. -/
def handleSendMessage (s : ClientState) : ClientState × List Effect × Option PublishError :=
  if jsTrim s.messageText = "" then (s, [], none)
  else if s.channelSet then
    ({ s with messageText := "" },
     [Effect.publish { name := s.username, data := s.messageText }], none)
  else (s, [], none)

/-- The input's `onChange`: `setMessageText(e.target.value)`. -/
def onChangeInput (s : ClientState) (t : String) : ClientState :=
  { s with messageText := t }

/-- The connection effect's cleanup (the component's stop operation): it
calls `ablyClient.close()` and modifies no React state. -/
def effectCleanup (s : ClientState) : ClientState × List Effect :=
  (s, [Effect.closeTransport])

/-- The events the component reacts to.  `connectEffect` is the effect
body that runs when `ablyScriptLoaded` flips; `unmount` runs that effect's
cleanup.  There is no transport "connected" event: the source registers no
connection-state listener, so no event of the model observes it. -/
inductive ClientEvent where
  | inbound (msg : AblyMessage)
  | submitForm
  | typeText (t : String)
  | scriptLoaded
  | connectEffect
  | unmount
  deriving DecidableEq, Repr

/-- One step of the component: the state update and the collaborator calls
emitted by the corresponding source handler. -/
def step (s : ClientState) : ClientEvent → ClientState × List Effect
  | ClientEvent.inbound m => (subscribeHandler s m, [])
  | ClientEvent.submitForm => ((handleSendMessage s).1, (handleSendMessage s).2.1)
  | ClientEvent.typeText t => (onChangeInput s t, [])
  | ClientEvent.scriptLoaded => ({ s with ablyScriptLoaded := true }, [])
  | ClientEvent.connectEffect =>
      if s.ablyScriptLoaded then ({ s with ablySet := true, channelSet := true }, [])
      else (s, [])
  | ClientEvent.unmount => effectCleanup s

/-- Run a sequence of events, accumulating the emitted effects. -/
def runTrace (s : ClientState) (es : List ClientEvent) : ClientState × List Effect :=
  es.foldl (fun acc e => ((step acc.1 e).1, acc.2 ++ (step acc.1 e).2)) (s, [])

/-- The component's state at mount (`username` is `'user-' + rand`; the
sample uses a fixed rand). -/
def initialState : ClientState :=
  { ablySet := false, channelSet := false, ablyScriptLoaded := false,
    messages := [], messageText := "", username := "user-1234" }

/-- A sample state after the script loaded and the connection effect ran,
with "hello" typed into the input. -/
def connectedSample : ClientState :=
  { ablySet := true, channelSet := true, ablyScriptLoaded := true,
    messages := [], messageText := "hello", username := "user-1" }

/-! ### String containment, used to state the secret-nonleakage claim -/

/-- Whether `sub` occurs as a contiguous sublist of the second argument. -/
def listHasSub (sub : List Char) : List Char → Bool
  | [] => sub.isEmpty
  | c :: cs => sub.isPrefixOf (c :: cs) || listHasSub sub cs

/-- Whether the string `sub` occurs as a contiguous substring of `s`. -/
def strContainsSub (sub s : String) : Bool := listHasSub sub.data s.data

/-! ### Helper lemmas -/

lemma handleSendMessage_messages (s : ClientState) :
    (handleSendMessage s).1.messages = s.messages := by
  unfold handleSendMessage
  split_ifs <;> rfl

lemma handleSendMessage_err (s : ClientState) :
    (handleSendMessage s).2.2 = none := by
  unfold handleSendMessage
  split_ifs <;> rfl

/-! ### Client-side claims -/

/-- Claim C5 (confirmed): inbound events delivered in the order e1, e2, e3
appear in the MessageLog in that relative order, each appended at the end;
and no operation of the component removes or reorders existing entries:
after any event the old log is an initial segment of the new one. -/
theorem messageLog_inbound_order (s : ClientState) (e1 e2 e3 : AblyMessage) :
    (step (step (step s (ClientEvent.inbound e1)).1 (ClientEvent.inbound e2)).1
        (ClientEvent.inbound e3)).1.messages = s.messages ++ [e1, e2, e3] ∧
    ∀ e : ClientEvent, ∃ t, (step s e).1.messages = s.messages ++ t := by
  constructor
  · simp [step, subscribeHandler]
  · intro e
    cases e with
    | inbound m => exact ⟨[m], by simp [step, subscribeHandler]⟩
    | submitForm => exact ⟨[], by simp [step, handleSendMessage_messages]⟩
    | typeText t => exact ⟨[], by simp [step, onChangeInput]⟩
    | scriptLoaded => exact ⟨[], by simp [step]⟩
    | connectEffect => exact ⟨[], by by_cases h : s.ablyScriptLoaded <;> simp [step, h]⟩
    | unmount => exact ⟨[], by simp [step, effectCleanup]⟩

/-- Claim C6 (confirmed): the publish operation never appends to the
MessageLog, and the only event that changes the MessageLog is the inbound
handler, which appends exactly the delivered message at the end. -/
theorem publish_does_not_append (s : ClientState) :
    (step s ClientEvent.submitForm).1.messages = s.messages ∧
    ∀ e : ClientEvent, (step s e).1.messages = s.messages ∨
      ∃ m, e = ClientEvent.inbound m ∧
        (step s e).1.messages = s.messages ++ [m] := by
  constructor
  · simp [step, handleSendMessage_messages]
  · intro e
    cases e with
    | inbound m => exact Or.inr ⟨m, rfl, by simp [step, subscribeHandler]⟩
    | submitForm => exact Or.inl (by simp [step, handleSendMessage_messages])
    | typeText t => exact Or.inl rfl
    | scriptLoaded => exact Or.inl rfl
    | connectEffect => exact Or.inl (by by_cases h : s.ablyScriptLoaded <;> simp [step, h])
    | unmount => exact Or.inl rfl

/-- Claim C7 (confirmed): a publish attempt whose body trims to the empty
string is defensively ignored: no transport call, no state change, no
error. -/
theorem empty_send_ignored (s : ClientState) (h : jsTrim s.messageText = "") :
    handleSendMessage s = (s, [], none) := by
  unfold handleSendMessage
  rw [if_pos h]

/-- Witness for C7 at a concrete whitespace-only input. -/
theorem empty_send_ignored_witness :
    jsTrim "  " = "" ∧
    handleSendMessage { initialState with messageText := "  " } =
      ({ initialState with messageText := "  " }, [], none) :=
  ⟨by decide, empty_send_ignored { initialState with messageText := "  " } (by decide)⟩

/-- Claim C10 (confirmed): the input buffer is cleared exactly when a
transport publish is performed, which happens exactly when the trimmed
body is non-empty and the channel handle is non-null; when no publish is
performed the whole state (in particular the typed text) is retained, and
no error is ever signaled. -/
theorem send_handler_buffer_reset (s : ClientState) :
    ((handleSendMessage s).2.1 ≠ [] ↔
        (jsTrim s.messageText ≠ "" ∧ s.channelSet = true)) ∧
    ((handleSendMessage s).2.1 ≠ [] → (handleSendMessage s).1.messageText = "") ∧
    ((handleSendMessage s).2.1 = [] → (handleSendMessage s).1 = s) ∧
    (handleSendMessage s).2.2 = none := by
  unfold handleSendMessage
  split_ifs with h1 h2
  · simp [h1]
  · simp [h1, h2]
  · have h2f : s.channelSet = false := by simpa using h2
    simp [h1, h2f]

/-- Witness for C10: at a connected state holding the text "hello" the
publish happens and the buffer is cleared. -/
theorem send_handler_buffer_reset_witness :
    (handleSendMessage connectedSample).1.messageText = "" :=
  (send_handler_buffer_reset connectedSample).2.1 (by decide)

/-- Claim C1 counterexample: the claim "publish outside `Connected`
returns `NotConnectedError` and never invokes the transport's publish
primitive" is false on the code.  In the trace below the connection effect
has just run, so the session is at best `Connecting` (the source registers
no connection-state listener and no transport "connected" event has been
delivered), yet submitting the form invokes the transport publish, and the
handler's error output is `none`, not `NotConnectedError`: the code gates
publish only on the nullness of the channel handle. -/
theorem publish_while_connecting_counterexample :
    (runTrace initialState
        [ClientEvent.scriptLoaded, ClientEvent.connectEffect,
         ClientEvent.typeText "hello", ClientEvent.submitForm]).2 =
      [Effect.publish { name := "user-1234", data := "hello" }] ∧
    (handleSendMessage
        (runTrace initialState
          [ClientEvent.scriptLoaded, ClientEvent.connectEffect,
           ClientEvent.typeText "hello"]).1).2.2 = none := by
  constructor <;> rfl

/-- Claim C1 (corrected): `handleSendMessage` never produces any error
value (in particular never `NotConnectedError`); it performs a transport
publish exactly when the trimmed body is non-empty and the channel handle
is non-null — irrespective of connection state — and while the channel
handle is null every send is silently dropped with no transport call. -/
theorem publish_gating (s : ClientState) :
    (handleSendMessage s).2.2 = none ∧
    ((handleSendMessage s).2.1 ≠ [] ↔
        (jsTrim s.messageText ≠ "" ∧ s.channelSet = true)) ∧
    (s.channelSet = false → (handleSendMessage s).2.1 = []) := by
  unfold handleSendMessage
  split_ifs with h1 h2
  · simp [h1]
  · simp [h1, h2]
  · have h2f : s.channelSet = false := by simpa using h2
    simp [h1, h2f]

/-- Witness for the corrected C1: with a null channel handle a non-empty
send performs no transport call. -/
theorem publish_gating_witness :
    (handleSendMessage { initialState with messageText := "hi" }).2.1 = [] :=
  (publish_gating { initialState with messageText := "hi" }).2.2 rfl

/-- Claim C8 counterexample: the claim that a second stop() performs no
duplicate teardown side effect is false on the code — the cleanup calls
`ablyClient.close()` unconditionally, so two invocations issue the
transport close primitive twice. -/
theorem stop_twice_duplicate_close :
    ((effectCleanup connectedSample).2 ++
        (effectCleanup (effectCleanup connectedSample).1).2) =
      [Effect.closeTransport, Effect.closeTransport] ∧
    ((effectCleanup connectedSample).2 ++
        (effectCleanup (effectCleanup connectedSample).1).2).count
      Effect.closeTransport = 2 := by
  constructor <;> rfl

/-- Claim C8 (corrected): calling stop() twice from any state raises no
error (the cleanup is a total function of the state), leaves the client
state unchanged both times, and requests transport closure on each call —
each invocation emits exactly one close call, so the close primitive is
re-issued rather than deduplicated; idempotence of the actual teardown is
delegated to the transport library. -/
theorem stop_twice_behavior (s : ClientState) :
    (effectCleanup s).1 = s ∧
    (effectCleanup s).2 = [Effect.closeTransport] ∧
    (effectCleanup (effectCleanup s).1).1 = s ∧
    (effectCleanup (effectCleanup s).1).2 = [Effect.closeTransport] :=
  ⟨rfl, rfl, rfl, rfl⟩

/-! ### Decimal-representation lemmas for the generated identity -/

lemma digitChar_isDigit : ∀ n : Nat, n < 10 → (Nat.digitChar n).isDigit = true := by
  decide

lemma toDigitsCore_all_digits :
    ∀ (fuel n : Nat) (ds : List Char), ds.all Char.isDigit = true →
      (Nat.toDigitsCore 10 fuel n ds).all Char.isDigit = true := by
  intro fuel
  induction fuel with
  | zero => intro n ds h; simpa [Nat.toDigitsCore] using h
  | succ k ih =>
    intro n ds h
    have hd : (Nat.digitChar (n % 10)).isDigit = true :=
      digitChar_isDigit _ (Nat.mod_lt _ (by norm_num))
    have hall : ((Nat.digitChar (n % 10)) :: ds).all Char.isDigit = true := by
      simp [List.all_cons, hd, h]
    by_cases hz : n / 10 = 0
    · simpa [Nat.toDigitsCore, hz] using hall
    · have := ih (n / 10) ((Nat.digitChar (n % 10)) :: ds) hall
      simpa [Nat.toDigitsCore, hz] using this

lemma toDigitsCore_length_le :
    ∀ (fuel n : Nat) (ds : List Char),
      ds.length ≤ (Nat.toDigitsCore 10 fuel n ds).length := by
  intro fuel
  induction fuel with
  | zero => intro n ds; simp [Nat.toDigitsCore]
  | succ k ih =>
    intro n ds
    by_cases hz : n / 10 = 0
    · simp [Nat.toDigitsCore, hz]
    · have h1 : ds.length ≤ ((Nat.digitChar (n % 10)) :: ds).length := by simp
      have h2 := ih (n / 10) ((Nat.digitChar (n % 10)) :: ds)
      have := le_trans h1 h2
      simpa [Nat.toDigitsCore, hz] using this

lemma toDigits_length_pos (n : Nat) : 1 ≤ (Nat.toDigits 10 n).length := by
  by_cases hz : n / 10 = 0
  · simp [Nat.toDigits, Nat.toDigitsCore, hz]
  · have h2 := toDigitsCore_length_le n (n / 10) [Nat.digitChar (n % 10)]
    simp only [List.length_cons, List.length_nil] at h2
    simpa [Nat.toDigits, Nat.toDigitsCore, hz] using h2

lemma repr_data (n : Nat) : (Nat.repr n).data = Nat.toDigits 10 n := rfl

lemma repr_all_digits (n : Nat) : (Nat.repr n).data.all Char.isDigit = true := by
  rw [repr_data]
  unfold Nat.toDigits
  exact toDigitsCore_all_digits (n + 1) n [] rfl

lemma repr_ne_nil (n : Nat) : (Nat.repr n).data ≠ [] := by
  rw [repr_data]
  intro h
  have := toDigits_length_pos n
  rw [h] at this
  simp at this

/-! ### Server-side claims -/

/-- Claim C2 (confirmed): when the process-wide secret is unset the
handler returns the 500 configuration-error response and performs zero
calls to the upstream signing API. -/
theorem tokenIssuer_unset_secret (α : Type) (serialize : α → String)
    (sign : String → String → Except String α) (rand : Nat) :
    GET serialize sign none rand = (⟨500, keyUnsetBody⟩, []) := rfl

/-- Claim C3 (confirmed): the handler always resolves to an HTTP response
(status 200 or 500, never a propagated exception), and when the upstream
signing call throws or rejects the result is the 500 response whose body
is the fixed generic string, independent of the internal error detail. -/
theorem tokenIssuer_upstream_failure_contained :
    (∀ (α : Type) (serialize : α → String) (sign : String → String → Except String α)
        (apiKey : Option String) (rand : Nat),
        (GET serialize sign apiKey rand).1.status = 200 ∨
        (GET serialize sign apiKey rand).1.status = 500) ∧
    (∀ (α : Type) (serialize : α → String) (sign : String → String → Except String α)
        (key : String) (rand : Nat) (e : String),
        key ≠ "" → sign key (clientIdFor rand) = Except.error e →
        GET serialize sign (some key) rand =
          (⟨500, tokenFailBody⟩, [⟨key, clientIdFor rand⟩])) := by
  constructor
  · intro α serialize sign apiKey rand
    cases apiKey with
    | none => exact Or.inr rfl
    | some key =>
      by_cases hk : key = ""
      · exact Or.inr (by simp [GET, hk])
      · cases hs : sign key (clientIdFor rand) with
        | ok tok => exact Or.inl (by simp [GET, hk, hs])
        | error e => exact Or.inr (by simp [GET, hk, hs])
  · intro α serialize sign key rand e hk hs
    simp [GET, hk, hs]

/-- Witness for C3: a signer double that rejects with "boom" yields the
500 response with the generic body. -/
theorem tokenIssuer_upstream_failure_contained_witness :
    GET (fun s : String => s) (fun _ _ => Except.error "boom") (some "sk_test_123") 7 =
      (⟨500, tokenFailBody⟩, [⟨"sk_test_123", clientIdFor 7⟩]) :=
  tokenIssuer_upstream_failure_contained.2 String (fun s => s)
    (fun _ _ => Except.error "boom") "sk_test_123" 7 "boom" (by decide) rfl

/-- Claim C4 (confirmed): on a successful issuance the response body is
exactly the serialization of the signer's token-request value — the
handler adds nothing of its own — so whenever that serialization does not
contain the raw secret (the upstream signer is an out-of-scope
collaborator assumed not to echo the key), neither does the HTTP body. -/
theorem tokenIssuer_success_body_excludes_secret (α : Type) (serialize : α → String)
    (sign : String → String → Except String α) (key : String) (rand : Nat) (tok : α)
    (hk : key ≠ "") (hs : sign key (clientIdFor rand) = Except.ok tok)
    (hns : strContainsSub key (serialize tok) = false) :
    (GET serialize sign (some key) rand).1.body = serialize tok ∧
    strContainsSub key ((GET serialize sign (some key) rand).1.body) = false := by
  have hbody : (GET serialize sign (some key) rand).1.body = serialize tok := by
    simp [GET, hk, hs]
  exact ⟨hbody, by rw [hbody]; exact hns⟩

/-- Witness for C4 at a concrete signer double. -/
theorem tokenIssuer_success_body_excludes_secret_witness :
    (GET (fun s : String => s) (fun _ _ => Except.ok "tok-abc")
        (some "sk_test_123") 7).1.body = "tok-abc" ∧
    strContainsSub "sk_test_123"
      ((GET (fun s : String => s) (fun _ _ => Except.ok "tok-abc")
          (some "sk_test_123") 7).1.body) = false :=
  tokenIssuer_success_body_excludes_secret String (fun s => s)
    (fun _ _ => Except.ok "tok-abc") "sk_test_123" 7 "tok-abc"
    (by decide) rfl (by decide)

/-- Claim C9 (confirmed): on a successful issuance the status is 200 and
the generated identity handed to the signer is the fixed namespace prefix
"amana-chat-user-" followed by the decimal representation of the random
draw — a non-empty all-digit suffix, i.e. it matches `prefix-\d+`. -/
theorem tokenIssuer_success_identity (α : Type) (serialize : α → String)
    (sign : String → String → Except String α) (key : String) (rand : Nat) (tok : α)
    (hk : key ≠ "") (hs : sign key (clientIdFor rand) = Except.ok tok) :
    (GET serialize sign (some key) rand).1.status = 200 ∧
    (GET serialize sign (some key) rand).2 =
      [⟨key, "amana-chat-user-" ++ Nat.repr rand⟩] ∧
    (Nat.repr rand).data ≠ [] ∧
    (Nat.repr rand).data.all Char.isDigit = true := by
  refine ⟨?_, ?_, repr_ne_nil rand, repr_all_digits rand⟩
  · simp [GET, hk, hs]
  · show (GET serialize sign (some key) rand).2 = [⟨key, clientIdFor rand⟩]
    simp [GET, hk, hs]

/-- Witness for C9 at a concrete draw. -/
theorem tokenIssuer_success_identity_witness :
    (GET (fun s : String => s) (fun _ _ => Except.ok "tok-abc")
        (some "sk_test_123") 4821).1.status = 200 ∧
    (GET (fun s : String => s) (fun _ _ => Except.ok "tok-abc")
        (some "sk_test_123") 4821).2 =
      [⟨"sk_test_123", "amana-chat-user-" ++ Nat.repr 4821⟩] ∧
    (Nat.repr 4821).data ≠ [] ∧
    (Nat.repr 4821).data.all Char.isDigit = true :=
  tokenIssuer_success_identity String (fun s => s) (fun _ _ => Except.ok "tok-abc")
    "sk_test_123" 4821 "tok-abc" (by decide) rfl

end AmanaChat
